import Mathlib

/-!
Shallow embedding of the elion voice-agent repository:
* `src/lib/nexhealth.ts` — the NexHealth REST client (token caching,
  response-shape normalization, slot-query parameter derivation);
* the agent worker file — config loader, prompt builder, and the tool
  layer (session-scoped patient/provider state, search fallback,
  operating-hours slot lookup, booking precondition).

JavaScript truthiness is modelled explicitly where the source relies on
it (`!currentPatientId`, `params.phone &&`, `hoursForDay ||`, ...):
`null`/`undefined`, `0` and `""` are falsy.
-/

/-- JS truthiness of a `string | null | undefined` value:
falsy when absent or the empty string. -/
def jsTruthyStr : Option String → Bool
  | none => false
  | some s => !(s == "")

/-- JS truthiness of a `number | null | undefined` value:
falsy when absent or zero. -/
def jsTruthyInt : Option Int → Bool
  | none => false
  | some n => !(n == 0)

/-- JS `s || fallback` on strings: the fallback replaces an empty string. -/
def jsStrOr (s fallback : String) : String :=
  if s == "" then fallback else s

/-- JS `.toLowerCase()`: lowercase each character (kernel-evaluable
form of `String.toLower`). -/
def strToLower (s : String) : String :=
  String.mk (s.data.map Char.toLower)

/-- JS object property lookup, modelled on an association list. -/
def jsLookup (obj : List (String × String)) (key : String) : Option String :=
  match obj with
  | [] => none
  | (k, v) :: rest => if k == key then some v else jsLookup rest key

/-- Substring membership on the character lists of strings
(used to state that a result string restates a patient name). -/
def charListIsPrefix : List Char → List Char → Bool
  | [], _ => true
  | _ :: _, [] => false
  | c :: cs, d :: ds => c == d && charListIsPrefix cs ds

/-- Whether `sub` occurs as a contiguous run inside `l`. -/
def charListHasInfix (l sub : List Char) : Bool :=
  match l with
  | [] => charListIsPrefix sub []
  | _ :: rest => charListIsPrefix sub l || charListHasInfix rest sub

/-- Whether `sub` occurs as a substring of `s`. -/
def strContains (s sub : String) : Bool :=
  charListHasInfix s.data sub.data

/-- First character of a string, if any. -/
def firstChar (s : String) : Option Char :=
  s.data.head?

/-! ## NexHealth REST client: bearer-token cache (`authenticate` / `request`) -/

/-- The mutable fields of `NexHealthClient` that carry the token cache:
`bearerToken : string | null` and `tokenExpiry : Date | null`
(the expiry as milliseconds since the epoch). -/
structure NexHealthState where
  bearerToken : Option String
  tokenExpiry : Option Int
deriving DecidableEq, Repr

/-- One HTTP call issued by the client: either a POST to the
`/authenticates` endpoint, or an API call carrying a bearer token. -/
inductive CallKind where
  | authCall
  | apiCall (token : String)
deriving DecidableEq, Repr

/-- `authenticate` from `src/lib/nexhealth.ts`: reuse the cached token when
`this.bearerToken && this.tokenExpiry && new Date() < this.tokenExpiry`;
otherwise issue one auth HTTP call whose outcome `env` either throws or
yields a token, cached with expiry `now + 55 minutes`. Returns the
token (or error), the new cache state, and the HTTP calls issued. -/
def authenticate (st : NexHealthState) (now : Int) (env : Except String String) :
    Except String String × NexHealthState × List CallKind :=
  if jsTruthyStr st.bearerToken && st.tokenExpiry.isSome
      && decide (now < st.tokenExpiry.getD 0) then
    (.ok (st.bearerToken.getD ""), st, [])
  else
    match env with
    | .error e => (.error e, st, [.authCall])
    | .ok tok => (.ok tok, ⟨some tok, some (now + 55 * 60 * 1000)⟩, [.authCall])

/-- `request` from `src/lib/nexhealth.ts`: first `authenticate`, then issue
the API call with the bearer token; an auth failure propagates before any
API call is made. Returns the new cache state and the HTTP call log. -/
def request (st : NexHealthState) (now : Int) (env : Except String String) :
    NexHealthState × List CallKind :=
  match authenticate st now env with
  | (.error _, st', log) => (st', log)
  | (.ok tok, st', log) => (st', log ++ [.apiCall tok])

/-- A sequence of client operations, each at a given time with a given
auth-endpoint outcome, threading the cache state and concatenating the
HTTP call logs. -/
def runRequests (st : NexHealthState) : List (Int × Except String String) →
    NexHealthState × List CallKind
  | [] => (st, [])
  | (now, env) :: rest =>
    let r := request st now env
    let rec' := runRequests r.1 rest
    (rec'.1, r.2 ++ rec'.2)

/-! ## NexHealth REST client: response-shape normalization -/

/-- `Patient` record (the fields the agent code reads). -/
structure Patient where
  id : Int
  first_name : String
  last_name : String
deriving DecidableEq, Repr

/-- `Provider` record (the fields the agent code reads). -/
structure Provider where
  id : Int
  first_name : String
  last_name : String
deriving DecidableEq, Repr

/-- `AppointmentSlot` record. -/
structure AppointmentSlot where
  time : String
  provider_id : Int
deriving DecidableEq, Repr

/-- `Appointment` record (the fields the agent code reads). -/
structure Appointment where
  id : Int
  patient_id : Int
  provider_id : Int
  start_time : String
deriving DecidableEq, Repr

/-- The duck-typed `data` field of a NexHealth response: either a bare
array, an object whose inner field (`patients` / `slots`) may be absent,
or `null`/`undefined`. -/
inductive NexData (α : Type) where
  | arr (items : List α)
  | obj (inner : Option (List α))
  | nullData
deriving DecidableEq

/-- The normalization in `searchPatients`:
`Array.isArray(data) ? data : (data?.patients || [])`. -/
def searchPatientsNormalize (data : NexData Patient) : List Patient :=
  match data with
  | .arr l => l
  | .obj (some l) => l
  | .obj none => []
  | .nullData => []

/-- The normalization in `getAppointmentSlots`:
`Array.isArray(data) ? data : (data?.slots || [])`. -/
def appointmentSlotsNormalize (data : NexData AppointmentSlot) : List AppointmentSlot :=
  match data with
  | .arr l => l
  | .obj (some l) => l
  | .obj none => []
  | .nullData => []

/-! ## NexHealth REST client: `getAppointmentSlots` query parameters -/

/-- `Math.ceil(a / b)` on a quotient of integers (exact real division,
then ceiling), as computed by the JS code for the day count. -/
def jsMathCeilDiv (a b : Int) : Int :=
  Int.ceil ((a : ℚ) / (b : ℚ))

/-- The day count sent by `getAppointmentSlots`:
`Math.ceil((end.getTime() - start.getTime()) / (1000*60*60*24)) + 1`. -/
def slotsDayCount (startMs endMs : Int) : Int :=
  jsMathCeilDiv (endMs - startMs) (1000 * 60 * 60 * 24) + 1

/-- The spec formula for the day count, written from the spec text:
`ceil((endDate-startDate)/1day) + 1` with dates in milliseconds and one
day = 86400000 ms. -/
def specDayCount (startMs endMs : Int) : Int :=
  Int.ceil (((endMs - startMs : Int) : ℚ) / (86400000 : ℚ)) + 1

/-- The query parameters built by `getAppointmentSlots` (keys in URL
order); `parseMs` stands for `new Date(string).getTime()`. Optional
ids are included only when truthy, as in the JS source. -/
def getAppointmentSlotsParams (subdomain : String) (locationId : Int)
    (providerId appointmentTypeId : Option Int)
    (startDate endDate : String) (parseMs : String → Int) :
    List (String × String) :=
  let start := parseMs startDate
  let stop := parseMs endDate
  let days := slotsDayCount start stop
  [("subdomain", subdomain), ("start_date", startDate),
   ("days", toString days), ("lids[]", toString locationId)]
  ++ (if jsTruthyInt providerId then [("pids[]", toString (providerId.getD 0))] else [])
  ++ (if jsTruthyInt appointmentTypeId then
        [("appointment_type_id", toString (appointmentTypeId.getD 0))] else [])

/-! ## Tool layer: session state and tool executions -/

/-- The closure-captured session variables of `createDynamicAgent`:
`currentPatientId` and `currentProviderId`, both `number | null`. -/
structure SessionState where
  currentPatientId : Option Int
  currentProviderId : Option Int
deriving DecidableEq, Repr

/-- The session state at the start of a conversation: both ids `null`. -/
def initialSession : SessionState := ⟨none, none⟩

/-- One PMS (NexHealth) operation invoked by a tool. `searchPatients`
carries the query parameters actually included in the URL. -/
inductive PMSCall where
  | searchPatients (name email phone : Option String)
  | createPatientCall (firstName lastName email phone dateOfBirth gender : String)
  | getProviders (locationId : Int)
  | createAppointment (patientId providerId : Int) (startTime : String)
deriving DecidableEq, Repr

/-- Whether a PMS call hits the appointment-creation endpoint
(POST `/appointments`). -/
def isCreateAppointmentCall : PMSCall → Bool
  | .createAppointment _ _ _ => true
  | _ => false

/-- The client drops falsy (absent or empty) optional query parameters:
`if (params.name) ... if (params.email) ... if (params.phone) ...`. -/
def jsParamOpt : Option String → Option String
  | none => none
  | some s => if s == "" then none else some s

/-- The `searchPatients` call as the client issues it, keeping only
truthy parameters. -/
def mkSearchPatientsCall (name email phone : Option String) : PMSCall :=
  .searchPatients (jsParamOpt name) (jsParamOpt email) (jsParamOpt phone)

/-- Result string literals of the tool layer, verbatim from the source. -/
def notConfiguredMsg : String :=
  "Booking system not configured. Please call the office directly."

/-- `searchPatient` success message. -/
def searchFoundMsg : String :=
  "Patient record found. Proceed directly to asking for appointment preference. Do not announce the patient\x27s name."

/-- `searchPatient` empty-result message. -/
def searchNotFoundMsg : String :=
  "Patient not found in our system. I\x27ll need to collect more information to create a new patient record."

/-- `searchPatient` catch-block message. -/
def searchTroubleMsg : String :=
  "I had trouble searching for the patient. Please try again."

/-- `searchPatientByEmail` success message. -/
def emailFoundMsg : String :=
  "Patient record found. Proceed directly to asking for appointment preference."

/-- `searchPatientByEmail` empty-result message. -/
def emailNotFoundMsg : String :=
  "I couldn\x27t find a record with that email. Let me create a new record for you."

/-- `searchPatientByEmail` catch-block message. -/
def emailTroubleMsg : String :=
  "I had trouble searching. Let me create a new record for you."

/-- `createPatient` success message (restates the given names). -/
def createdMsg (firstName lastName : String) : String :=
  "Great! I\x27ve created a patient record for " ++ firstName ++ " " ++ lastName
    ++ ". Now let me check our availability."

/-- `createPatient` catch-block message. -/
def createTroubleMsg : String :=
  "I had trouble creating the patient record. Please try again or call the office directly."

/-- `getAvailableSlots` catch-block message. -/
def slotsTroubleMsg : String :=
  "I\x27m having trouble checking availability right now. Please try again."

/-- `getAvailableSlots` closed-day message. -/
def closedMsg (searchStartDate dayName : String) : String :=
  "We are closed on " ++ searchStartDate ++ " (" ++ dayName ++ "). Please check another day."

/-- `getAvailableSlots` open-day message (the hours range). -/
def openHoursMsg (searchStartDate dayName hoursForDay : String) : String :=
  "We are open on " ++ searchStartDate ++ " (" ++ dayName ++ ") from " ++ hoursForDay
    ++ ". You can request any time within these hours."

/-- `bookAppointment` missing-patient corrective message. -/
def needInfoMsg : String :=
  "I need to have your patient information first. Can you give me your name and email?"

/-- `bookAppointment` no-provider message. -/
def noProviderMsg : String :=
  "I couldn\x27t find an available provider. Please call the office directly."

/-- `bookAppointment` confirmation message. -/
def bookConfirmMsg (formattedDate formattedTime : String) : String :=
  "Your appointment is confirmed for " ++ formattedDate ++ " at " ++ formattedTime
    ++ ". You\x27ll receive a confirmation email shortly."

/-- `bookAppointment` catch-block message. -/
def bookTroubleMsg : String :=
  "I\x27m having trouble booking right now. Please try again or call the office directly."

/-- The `searchPatient` tool body. `r1` is the outcome of the name+phone
search, `r2` of the name-only fallback (issued only when the first
returns zero results). Returns the new session state, the result string,
and the PMS calls issued in order. -/
def searchPatientExec (nexhealthConfigured : Bool) (st : SessionState)
    (firstName lastName phone : String)
    (r1 r2 : Except Unit (List Patient)) :
    SessionState × String × List PMSCall :=
  let fullName := firstName ++ " " ++ lastName
  let call1 := mkSearchPatientsCall (some fullName) none (some phone)
  let call2 := mkSearchPatientsCall (some fullName) none none
  if !nexhealthConfigured then (st, notConfiguredMsg, [])
  else
    match r1 with
    | .error _ => (st, searchTroubleMsg, [call1])
    | .ok ps1 =>
      if ps1.length == 0 then
        match r2 with
        | .error _ => (st, searchTroubleMsg, [call1, call2])
        | .ok ps2 =>
          match ps2 with
          | [] => (st, searchNotFoundMsg, [call1, call2])
          | p :: _ =>
            ({ st with currentPatientId := some p.id }, searchFoundMsg, [call1, call2])
      else
        match ps1 with
        | [] => (st, searchNotFoundMsg, [call1])
        | p :: _ =>
          ({ st with currentPatientId := some p.id }, searchFoundMsg, [call1])

/-- The `searchPatientByEmail` tool body. -/
def searchPatientByEmailExec (nexhealthConfigured : Bool) (st : SessionState)
    (email : String) (r : Except Unit (List Patient)) :
    SessionState × String × List PMSCall :=
  let call := mkSearchPatientsCall none (some email) none
  if !nexhealthConfigured then (st, notConfiguredMsg, [])
  else
    match r with
    | .error _ => (st, emailTroubleMsg, [call])
    | .ok ps =>
      match ps with
      | [] => (st, emailNotFoundMsg, [call])
      | p :: _ =>
        ({ st with currentPatientId := some p.id }, emailFoundMsg, [call])

/-- The `createPatient` tool body. -/
def createPatientExec (nexhealthConfigured : Bool) (st : SessionState)
    (firstName lastName email phone dateOfBirth gender : String)
    (r : Except Unit Patient) :
    SessionState × String × List PMSCall :=
  let call := PMSCall.createPatientCall firstName lastName email phone dateOfBirth gender
  if !nexhealthConfigured then (st, notConfiguredMsg, [])
  else
    match r with
    | .error _ => (st, createTroubleMsg, [call])
    | .ok p =>
      ({ st with currentPatientId := some p.id }, createdMsg firstName lastName, [call])

/-- The JS weekday-name array `['sunday',...,'saturday']` with the
`days[targetDate.getDay()] || 'monday'` fallback. -/
def dayNameOf (dayIdx : Nat) : String :=
  jsStrOr (List.getD
    ["sunday", "monday", "tuesday", "wednesday", "thursday", "friday", "saturday"]
    dayIdx "") "monday"

/-- The hours-based body of `getAvailableSlots` after the lazy provider
fetch: look up the weekday in `rawHours`; a falsy entry or a
case-insensitive `"closed"` entry yields the closed message, anything
else the hours range. -/
def slotsHoursBody (rawHours : List (String × String))
    (searchStartDate dayName : String) : String :=
  match jsLookup rawHours dayName with
  | none => closedMsg searchStartDate dayName
  | some h =>
    if h == "" || strToLower h == "closed" then closedMsg searchStartDate dayName
    else openHoursMsg searchStartDate dayName h

/-- The `getAvailableSlots` tool body. `rawHoursOpt` is
`generalInfo.rawHours` (`|| {}` applied inside); `startDate` the
optional requested date, `todayStr` today per `new Date()`; `dayIdx` the
value of `targetDate.getDay()`; `provResp` the outcome of the lazy
provider fetch, performed only when no provider id is cached and the
NexHealth client exists, and whose exception aborts to the catch
message. -/
def getAvailableSlotsExec (nexhealthConfigured : Bool)
    (rawHoursOpt : Option (List (String × String))) (st : SessionState)
    (startDate : Option String) (todayStr : String) (dayIdx : Nat)
    (provResp : Except Unit (List Provider)) (locationId : Int) :
    SessionState × String × List PMSCall :=
  let searchStartDate := startDate.getD todayStr
  let rawHours := rawHoursOpt.getD []
  let dayName := dayNameOf dayIdx
  if !(jsTruthyInt st.currentProviderId) && nexhealthConfigured then
    match provResp with
    | .error _ => (st, slotsTroubleMsg, [.getProviders locationId])
    | .ok provs =>
      let st' := match provs with
        | [] => st
        | p :: _ => { st with currentProviderId := some p.id }
      (st', slotsHoursBody rawHours searchStartDate dayName, [.getProviders locationId])
  else
    (st, slotsHoursBody rawHours searchStartDate dayName, [])

/-- The `bookAppointment` tool body. `provResp` is the outcome of the
lazy provider fetch (issued only when no provider id is cached);
`apptResp` the outcome of `createAppointment`; `fmtDate`/`fmtTime` stand
for the locale-formatted date and time of `startTime`. -/
def bookAppointmentExec (nexhealthConfigured : Bool) (st : SessionState)
    (startTime : String) (fmtDate fmtTime : String)
    (provResp : Except Unit (List Provider)) (apptResp : Except Unit Appointment)
    (locationId : Int) :
    SessionState × String × List PMSCall :=
  if !nexhealthConfigured then (st, notConfiguredMsg, [])
  else if !(jsTruthyInt st.currentPatientId) then (st, needInfoMsg, [])
  else
    let afterProv : SessionState × Option String × List PMSCall :=
      if !(jsTruthyInt st.currentProviderId) then
        match provResp with
        | .error _ => (st, some bookTroubleMsg, [.getProviders locationId])
        | .ok provs =>
          match provs with
          | [] => (st, some noProviderMsg, [.getProviders locationId])
          | p :: _ =>
            ({ st with currentProviderId := some p.id }, none, [.getProviders locationId])
      else (st, none, [])
    match afterProv with
    | (st', some msg, calls) => (st', msg, calls)
    | (st', none, calls) =>
      let bookCall := PMSCall.createAppointment (st'.currentPatientId.getD 0)
        (st'.currentProviderId.getD 0) startTime
      match apptResp with
      | .error _ => (st', bookTroubleMsg, calls ++ [bookCall])
      | .ok _ => (st', bookConfirmMsg fmtDate fmtTime, calls ++ [bookCall])

/-! ## Tool layer: uniform tool-call step -/

/-- `GeneralInfo` as transformed from the Supabase row (`rawHours` keeps
the raw operating-hours object, possibly null). -/
structure GeneralInfo where
  practiceName : String
  phone : String
  software : String
  noShowFee : Int
  address : String
  hours : String
  services : String
  rawHours : Option (List (String × String))
deriving DecidableEq, Repr

/-- The per-conversation context captured by the tool closures:
whether a NexHealth client was constructed
(`nexhealthApiKey && nexhealthConfig.subdomain`), the parsed location
id, the business `generalInfo`, and the `JSON.stringify(generalInfo)`
fallback string used by `getPracticeInfo`. -/
structure ToolCtx where
  nexhealthConfigured : Bool
  locationId : Int
  generalInfo : GeneralInfo
  generalInfoJson : String
deriving DecidableEq, Repr

/-- The `getPracticeInfo` tool body:
`info[infoType.toLowerCase()] || JSON.stringify(generalInfo)`. -/
def getPracticeInfoExec (ctx : ToolCtx) (infoType : String) : String :=
  let key := strToLower infoType
  let v : Option String :=
    if key == "hours" then some ctx.generalInfo.hours
    else if key == "location" then some ctx.generalInfo.address
    else if key == "services" then some ctx.generalInfo.services
    else if key == "contact" then some ctx.generalInfo.phone
    else if key == "noshowfee" then some ("$" ++ toString ctx.generalInfo.noShowFee)
    else none
  match v with
  | none => ctx.generalInfoJson
  | some s => jsStrOr s ctx.generalInfoJson

/-- Decidable equality for `Except` results (used to evaluate concrete
tool-call scenarios). -/
instance {ε α : Type} [DecidableEq ε] [DecidableEq α] : DecidableEq (Except ε α) := fun a b =>
  match a, b with
  | .error e, .error f =>
    if h : e = f then isTrue (congrArg _ h) else isFalse (fun hh => h (Except.error.inj hh))
  | .error _, .ok _ => isFalse (fun hh => Except.noConfusion hh)
  | .ok _, .error _ => isFalse (fun hh => Except.noConfusion hh)
  | .ok x, .ok y =>
    if h : x = y then isTrue (congrArg _ h) else isFalse (fun hh => h (Except.ok.inj hh))

/-- One tool invocation together with the upstream responses it would
observe (the environment is baked into the call). -/
inductive ToolCall where
  | search (firstName lastName phone : String) (r1 r2 : Except Unit (List Patient))
  | searchByEmail (email : String) (r : Except Unit (List Patient))
  | create (firstName lastName email phone dateOfBirth gender : String)
      (r : Except Unit Patient)
  | slots (startDate : Option String) (todayStr : String) (dayIdx : Nat)
      (provResp : Except Unit (List Provider))
  | book (startTime : String) (fmtDate fmtTime : String)
      (provResp : Except Unit (List Provider)) (apptResp : Except Unit Appointment)
  | practiceInfo (infoType : String)
deriving DecidableEq

/-- Execute one tool call: dispatch to the tool bodies above. -/
def execTool (ctx : ToolCtx) (st : SessionState) :
    ToolCall → SessionState × String × List PMSCall
  | .search fn ln ph r1 r2 =>
    searchPatientExec ctx.nexhealthConfigured st fn ln ph r1 r2
  | .searchByEmail em r =>
    searchPatientByEmailExec ctx.nexhealthConfigured st em r
  | .create fn ln em ph dob g r =>
    createPatientExec ctx.nexhealthConfigured st fn ln em ph dob g r
  | .slots sd today dayIdx provResp =>
    getAvailableSlotsExec ctx.nexhealthConfigured ctx.generalInfo.rawHours st
      sd today dayIdx provResp ctx.locationId
  | .book startTime fd ft provResp apptResp =>
    bookAppointmentExec ctx.nexhealthConfigured st startTime fd ft provResp apptResp
      ctx.locationId
  | .practiceInfo it => (st, getPracticeInfoExec ctx it, [])

/-- Run a sequence of tool calls, threading the session state. -/
def runTools (ctx : ToolCtx) (st : SessionState) : List ToolCall → SessionState
  | [] => st
  | c :: cs => runTools ctx (execTool ctx st c).1 cs

/-- The patient id a tool call caches on success (`none` when the call
is not a successful search/create, e.g. on error, on zero results, or
when the booking system is unconfigured). -/
def resolvesId (ctx : ToolCtx) : ToolCall → Option Int
  | .search _ _ _ r1 r2 =>
    if !ctx.nexhealthConfigured then none
    else
      match r1 with
      | .error _ => none
      | .ok ps1 =>
        if ps1.length == 0 then
          match r2 with
          | .error _ => none
          | .ok [] => none
          | .ok (p :: _) => some p.id
        else
          match ps1 with
          | [] => none
          | p :: _ => some p.id
  | .searchByEmail _ r =>
    if !ctx.nexhealthConfigured then none
    else
      match r with
      | .error _ => none
      | .ok [] => none
      | .ok (p :: _) => some p.id
  | .create _ _ _ _ _ _ r =>
    if !ctx.nexhealthConfigured then none
    else
      match r with
      | .error _ => none
      | .ok p => some p.id
  | .slots _ _ _ _ => none
  | .book _ _ _ _ _ => none
  | .practiceInfo _ => none

/-! ## Config loader -/

/-- `services` column of a business row: a JSON array, some other
non-null value coerced to a string, or null. -/
inductive ServicesVal where
  | arr (items : List String)
  | str (s : String)
  | nullv
deriving DecidableEq, Repr

/-- A row of the `businesses` table (the columns the loader reads). -/
structure BusinessRow where
  id : String
  name : String
  phone_no : Option String
  practice_software : Option String
  no_show_fees : Option Int
  address : Option String
  operating_hours : Option (List (String × String))
  services : ServicesVal
  nexhealth_subdomain : Option String
  nexhealth_location_id : Option String
  pms_provider : Option String
  dental_bridge_location_id : Option String
deriving DecidableEq, Repr

/-- A row of the `business_agents` table (the columns the loader reads). -/
structure AgentRow where
  agent_name : Option String
  greeting_text : Option String
  pretendence : Option Bool
  voice : Option String
deriving DecidableEq, Repr

/-- `AgentConfig` part of the business configuration. -/
structure AgentConfig where
  agentName : Option String
  greeting : Option String
  pretendence : Option Bool
  voice : Option String
deriving DecidableEq, Repr

/-- `NexHealthConfig` part of the business configuration. -/
structure NexHealthTenantConfig where
  subdomain : Option String
  locationId : Option String
deriving DecidableEq, Repr

/-- `BusinessConfig` as assembled by the loader. -/
structure BusinessConfig where
  id : String
  name : String
  generalInfo : GeneralInfo
  agentConfig : AgentConfig
  pmsProvider : Option String
  nexhealthConfig : NexHealthTenantConfig
  dentalBridgeLocationId : Option String
deriving DecidableEq, Repr

/-- `day.charAt(0).toUpperCase() + day.slice(1)`. -/
def capitalizeDay (s : String) : String :=
  match s.data with
  | [] => ""
  | c :: rest => String.mk (c.toUpper :: rest)

/-- `formatOperatingHours`: drop falsy and `"Closed"` entries, render
`Day: time` joined by `", "`, falling back to `"Not specified"` when
null or when nothing remains. -/
def formatOperatingHours (hours : Option (List (String × String))) : String :=
  match hours with
  | none => "Not specified"
  | some hs =>
    let entries := hs.filter (fun kv => !(kv.2 == "") && !(kv.2 == "Closed"))
    let formatted := String.intercalate ", "
      (entries.map (fun kv => capitalizeDay kv.1 ++ ": " ++ kv.2))
    jsStrOr formatted "Not specified"

/-- The `services` display string:
`Array.isArray(services) ? services.join(", ") : (services || "Not specified")`. -/
def servicesDisplay : ServicesVal → String
  | .arr items => String.intercalate ", " items
  | .str s => jsStrOr s "Not specified"
  | .nullv => "Not specified"

/-- The transformation of a business row plus optional agent row into a
`BusinessConfig` (lines 157-184 of the worker source), with the
documented human-readable defaults. -/
def mkBusinessConfig (business : BusinessRow) (agent : Option AgentRow) :
    BusinessConfig :=
  { id := business.id
    name := business.name
    generalInfo :=
      { practiceName := business.name
        phone := business.phone_no.getD "Not provided"
        software := business.practice_software.getD "Not specified"
        noShowFee := business.no_show_fees.getD 0
        address := business.address.getD "Not provided"
        hours := formatOperatingHours business.operating_hours
        services := servicesDisplay business.services
        rawHours := business.operating_hours }
    agentConfig :=
      { agentName := agent.bind (·.agent_name)
        greeting := agent.bind (·.greeting_text)
        pretendence := some ((agent.bind (·.pretendence)).getD false)
        voice := some (((agent.bind (·.voice)).getD "Puck")) }
    pmsProvider := business.pms_provider
    nexhealthConfig :=
      { subdomain := business.nexhealth_subdomain
        locationId := business.nexhealth_location_id }
    dentalBridgeLocationId := business.dental_bridge_location_id }

/-- A Supabase query result: `{ data, error }` (the client reports
failures in the `error` field instead of throwing). -/
structure QueryRes where
  data : Option (List BusinessRow)
  error : Option String
deriving DecidableEq, Repr

/-- The environment a single `loadBusinessConfigInternal` run observes:
the by-id query result, the fallback query result, the agents query
data, and an exception thrown anywhere in the body (`exn`). -/
structure SupaEnv where
  byId : QueryRes
  fallback : QueryRes
  agents : Option (List AgentRow)
  exn : Option Unit
deriving DecidableEq

/-- `loadBusinessConfigInternal`: returns `none` when the Supabase
client is missing, when the final query reported an error, when no row
was found, or when any exception was thrown (the body-wide
`try`/`catch` maps exceptions to `null`); otherwise transforms the first
row. The fallback query runs whenever the by-id result is absent or
empty (including when no id was supplied). -/
def loadBusinessConfigInternal (supabaseAvailable : Bool)
    (businessId : Option String) (env : SupaEnv) : Option BusinessConfig :=
  if env.exn.isSome then none
  else if !supabaseAvailable then none
  else
    let first : Option (List BusinessRow) × Option String :=
      match businessId with
      | some _ => (env.byId.data, env.byId.error)
      | none => (none, none)
    let final : Option (List BusinessRow) × Option String :=
      if first.1 = none ∨ first.1 = some [] then (env.fallback.data, env.fallback.error)
      else first
    if final.2.isSome then none
    else
      match final.1 with
      | none => none
      | some [] => none
      | some (b :: _) =>
        some (mkBusinessConfig b ((env.agents.getD []).head?))

/-- `loadBusinessConfig`: race the internal load against a 10000 ms
timer; the surrounding `try`/`catch` maps a timeout rejection (or any
other rejection) to `null`. `elapsedMs` is the time the internal load
would take. -/
def loadBusinessConfig (supabaseAvailable : Bool) (businessId : Option String)
    (env : SupaEnv) (elapsedMs : Nat) : Option BusinessConfig :=
  if 10000 ≤ elapsedMs then none
  else loadBusinessConfigInternal supabaseAvailable businessId env

/-! ## Prompt builder (`createDynamicAgent` instruction template) -/

/-- The `identityInstructions` ternary of `createDynamicAgent`. -/
def identityInstructions (pretendence : Bool) (agentName practiceName : String) : String :=
  if pretendence then
    "You are " ++ agentName ++ ", a receptionist at " ++ practiceName
      ++ ". Act naturally as a helpful human receptionist."
  else
    "You are " ++ agentName ++ ", an AI assistant receptionist at " ++ practiceName
      ++ ". When asked, honestly say you are an AI assistant. Never pretend to be human."

/-- The `fullInstructions` template of `createDynamicAgent`, verbatim.
`today` stands for `new Date().toISOString().split('T')[0]`, read from
the system clock at invocation time. -/
def fullInstructions (config : BusinessConfig) (today : String) : String :=
  let gi := config.generalInfo
  let agentName := config.agentConfig.agentName.getD ""
  let pretendence := (config.agentConfig.pretendence).getD false
  identityInstructions pretendence agentName gi.practiceName
    ++ " Today is " ++ today ++ ".\n\n\n"
    ++ "GOAL: Helps callers with their inquiries and book appointments efficiently and naturally.\n\n"
    ++ "TOOLS:\n"
    ++ "- getAvailableSlots: Check availability (uses practice operating hours).\n"
    ++ "- searchPatient: Find existing patient by name/phone.\n"
    ++ "- searchPatientByEmail: Find by email.\n"
    ++ "- createPatient: Register new patient (Name, Email, Phone, DOB, Gender required).\n"
    ++ "- bookAppointment: Finalize booking (Patient info + Time).\n"
    ++ "- getPracticeInfo: General Q&A (Hours, location, etc).\n\n"
    ++ "CRITICAL RULES:\n"
    ++ "- **Identity**: You know your name and role. DO NOT use tools to find out who you are.\n"
    ++ "- **Tool Usage**: Use tools ONLY when you need external data.\n"
    ++ "- **Phasing**: Do NOT say \"Let me check that\" for simple questions.\n"
    ++ "- **Tone**: Be warm, professional, and efficient.\n"
    ++ "- **Style**: OCCASIONALLY use natural fillers like \"ummm\", \"aaah\", \"let me see\" to sound more human. Don\x27t overdo it, but use them when processing or transitioning.\n"
    ++ "- **Brevity**: Keep responses under 2 sentences unless explaining complex info.\n"
    ++ "- **GREETING**: Always start the conversation by introducing yourself. Do NOT ask for the user\x27s name immediately unless they want to book an appointment.\n\n"
    ++ "PROCEDURES:\n"
    ++ "1. **GREETING**: Wait for the user to respond to your greeting.\n"
    ++ "2. **INQUIRY**: Answer questions about hours, services, location, etc.\n"
    ++ "3. **BOOKING (Only if user asks to book)**:\n"
    ++ "   a. **STEP 1**: Ask for **First Name**. Wait for answer.\n"
    ++ "   b. **STEP 2**: Ask for **Last Name**. Wait for answer.\n"
    ++ "   c. **STEP 3**: Ask for **Phone Number**. Wait for answer.\n"
    ++ "   d. **STEP 4**: Call `searchPatient` with the collected info.\n"
    ++ "      - **IF FOUND**: SILENTLY acknowledge it. **DO NOT** say \"I found John Smith\". Just say something like \"Okay, I have your file pulled up.\" or \"Great, thanks.\" and immediately move to asking about appointment times.\n"
    ++ "      - **IF NOT FOUND**: The tool will tell you. You can say \"I couldn\x27t find a file with that info...\" and ask for Email, DOB, Gender to `createPatient`.\n"
    ++ "   e. Check availability -> `getAvailableSlots`.\n"
    ++ "   f. Offer 2-3 slots based on the operating hours returned.\n"
    ++ "   g. Confirm & Book -> `bookAppointment`.\n\n"
    ++ "One question at a time. Wait for user answer.\n\n"
    ++ "Practice: " ++ gi.practiceName ++ "\n"
    ++ "Address: " ++ gi.address ++ "\n"
    ++ "Phone: " ++ gi.phone ++ "\n"
    ++ "Hours: " ++ gi.hours ++ "\n"
    ++ "Services: " ++ gi.services ++ "\n"
    ++ "No-Show Fee: $" ++ toString gi.noShowFee ++ "\n"

/-! ## Helper lemmas -/

/-- The character data of a string concatenation. -/
theorem strDataAppend (a b : String) : (a ++ b).data = a.data ++ b.data := rfl

/-- A full name `first ++ " " ++ last` is never the empty string. -/
theorem fullNameNeEmpty (fn ln : String) : ¬ (fn ++ " " ++ ln) = "" := by
  intro h
  have hl := congrArg String.length h
  have h1 : (" " : String).length = 1 := rfl
  simp [String.length_append, h1] at hl

/-- The code's day count and the spec formula agree. -/
theorem slotsDayCountEqSpec (s e : Int) : slotsDayCount s e = specDayCount s e := by
  simp [slotsDayCount, specDayCount, jsMathCeilDiv]

/-- A cached, unexpired token short-circuits `authenticate`. -/
theorem authenticateCached (t : String) (e now : Int) (env : Except String String)
    (ht : t ≠ "") (h : now < e) :
    authenticate ⟨some t, some e⟩ now env = (.ok t, ⟨some t, some e⟩, []) := by
  simp [authenticate, jsTruthyStr, ht, h]

/-- An expired token forces a fresh authentication call. -/
theorem authenticateExpired (t : String) (e now : Int) (tok : String) (h : e ≤ now) :
    authenticate ⟨some t, some e⟩ now (.ok tok)
      = (.ok tok, ⟨some tok, some (now + 55 * 60 * 1000)⟩, [.authCall]) := by
  have h' : ¬ now < e := not_lt.mpr h
  simp [authenticate, h']

/-- `request` under a cached, unexpired token: no auth call, token reused. -/
theorem requestCached (t : String) (e now : Int) (env : Except String String)
    (ht : t ≠ "") (h : now < e) :
    request ⟨some t, some e⟩ now env = (⟨some t, some e⟩, [.apiCall t]) := by
  simp [request, authenticateCached t e now env ht h]

/-! ## Claim theorems -/

/-- C1: if a bearer token is cached and the current time is strictly
before the cached expiry, any number of subsequent operations reuse that
token and issue no new authentication HTTP call (the cache state is also
unchanged); once the current time is at or past the expiry, the next
operation triggers exactly one re-authentication call before its API
request is issued. -/
theorem tokenCacheReuse (t : String) (e : Int)
    (ops : List (Int × Except String String)) (now2 : Int) (tok2 : String)
    (ht : t ≠ "") (hops : ∀ p ∈ ops, p.1 < e) :
    (runRequests ⟨some t, some e⟩ ops).2 = ops.map (fun _ => CallKind.apiCall t) ∧
    (runRequests ⟨some t, some e⟩ ops).1 = ⟨some t, some e⟩ ∧
    (e ≤ now2 →
      (request ⟨some t, some e⟩ now2 (.ok tok2)).2
        = [CallKind.authCall, CallKind.apiCall tok2]) := by
  refine ⟨?_, ?_, ?_⟩
  · induction ops with
    | nil => simp [runRequests]
    | cons p rest ih =>
      obtain ⟨now, env⟩ := p
      have hnow : now < e := hops (now, env) (List.mem_cons_self _ _)
      have hrest : ∀ q ∈ rest, q.1 < e := fun q hq => hops q (List.mem_cons_of_mem _ hq)
      simp [runRequests, requestCached t e now env ht hnow, ih hrest]
  · induction ops with
    | nil => simp [runRequests]
    | cons p rest ih =>
      obtain ⟨now, env⟩ := p
      have hnow : now < e := hops (now, env) (List.mem_cons_self _ _)
      have hrest : ∀ q ∈ rest, q.1 < e := fun q hq => hops q (List.mem_cons_of_mem _ hq)
      simp [runRequests, requestCached t e now env ht hnow, ih hrest]
  · intro hexp
    simp [request, authenticateExpired t e now2 tok2 hexp]

/-- Witness for C1: a concrete session (token cached until time 100;
operations at times 10 and 50 reuse it; an operation at time 100
re-authenticates exactly once). -/
theorem tokenCacheReuse_witness :
    (runRequests ⟨some "tok", some 100⟩ [(10, .ok "a"), (50, .ok "b")]).2
        = [CallKind.apiCall "tok", CallKind.apiCall "tok"] ∧
    (request ⟨some "tok", some 100⟩ 100 (.ok "t2")).2
        = [CallKind.authCall, CallKind.apiCall "t2"] := by
  have h := tokenCacheReuse "tok" 100 [(10, .ok "a"), (50, .ok "b")] 100 "t2"
    (by decide) (by decide)
  exact ⟨by simpa using h.1, h.2.2 (by decide)⟩

/-- C5: `searchPatients` yields the same patient sequence for a bare
array and a `patients`-wrapped object of identical content, likewise
`getAppointmentSlots` for the `slots` analogue, and a wrapped object
missing the inner field normalizes to the empty sequence. -/
theorem responseShapeNormalization (lp : List Patient) (ls : List AppointmentSlot) :
    searchPatientsNormalize (.arr lp) = searchPatientsNormalize (.obj (some lp)) ∧
    appointmentSlotsNormalize (.arr ls) = appointmentSlotsNormalize (.obj (some ls)) ∧
    searchPatientsNormalize (.obj none) = [] ∧
    appointmentSlotsNormalize (.obj none) = [] :=
  ⟨rfl, rfl, rfl, rfl⟩

/-- C7: the `days` query parameter sent by `getAppointmentSlots` equals
`ceil((endDate - startDate) / 1 day) + 1`, and no `end_date` parameter is
sent. -/
theorem slotsDayCountParam (subdomain : String) (locationId : Int)
    (providerId appointmentTypeId : Option Int) (startDate endDate : String)
    (parseMs : String → Int) :
    ("days", toString (specDayCount (parseMs startDate) (parseMs endDate)))
      ∈ getAppointmentSlotsParams subdomain locationId providerId appointmentTypeId
          startDate endDate parseMs ∧
    (getAppointmentSlotsParams subdomain locationId providerId appointmentTypeId
        startDate endDate parseMs).all (fun kv => !(kv.1 == "end_date")) = true := by
  constructor
  · rw [← slotsDayCountEqSpec]
    simp [getAppointmentSlotsParams]
  · simp only [getAppointmentSlotsParams, List.all_append]
    split_ifs <;> simp

/-- Lookup failure (the final query reporting an error or yielding no
row) makes the internal loader return absence. -/
theorem internalLookupFailure (supabaseAvailable : Bool) (businessId : Option String)
    (env : SupaEnv)
    (h1 : env.byId.error.isSome = true ∨ env.byId.data = none ∨ env.byId.data = some [])
    (h2 : env.fallback.error.isSome = true ∨ env.fallback.data = none
            ∨ env.fallback.data = some []) :
    loadBusinessConfigInternal supabaseAvailable businessId env = none := by
  obtain ⟨⟨bd, be⟩, ⟨fd, fe⟩, ag, ex⟩ := env
  dsimp at h1 h2
  rcases bd with _ | ⟨_ | ⟨b, bs⟩⟩ <;>
  rcases fd with _ | ⟨_ | ⟨f, fs⟩⟩ <;>
  rcases be with _ | bev <;> rcases fe with _ | fev <;>
  cases ex <;> cases supabaseAvailable <;> cases businessId <;>
  rcases h1 with h1 | h1 | h1 <;> rcases h2 with h2 | h2 | h2 <;>
    simp_all [loadBusinessConfigInternal]

/-- C6: the Config Loader returns either a populated configuration or an
absence signal and never propagates an exception; the lookup is raced
against a fixed 10000 ms timeout, and timeout, lookup failure, a missing
data-store client, or any exception all resolve to absence. -/
theorem configLoaderAbsence (supabaseAvailable : Bool) (businessId : Option String)
    (env : SupaEnv) (elapsedMs : Nat) :
    (loadBusinessConfig supabaseAvailable businessId env elapsedMs = none ∨
      ∃ c, loadBusinessConfig supabaseAvailable businessId env elapsedMs = some c) ∧
    (10000 ≤ elapsedMs →
      loadBusinessConfig supabaseAvailable businessId env elapsedMs = none) ∧
    (env.exn.isSome = true →
      loadBusinessConfig supabaseAvailable businessId env elapsedMs = none) ∧
    (supabaseAvailable = false →
      loadBusinessConfig supabaseAvailable businessId env elapsedMs = none) ∧
    ((env.byId.error.isSome = true ∨ env.byId.data = none ∨ env.byId.data = some []) →
     (env.fallback.error.isSome = true ∨ env.fallback.data = none
        ∨ env.fallback.data = some []) →
      loadBusinessConfig supabaseAvailable businessId env elapsedMs = none) := by
  refine ⟨?_, ?_, ?_, ?_, ?_⟩
  · cases h : loadBusinessConfig supabaseAvailable businessId env elapsedMs with
    | none => exact Or.inl rfl
    | some c => exact Or.inr ⟨c, rfl⟩
  · intro hb
    simp [loadBusinessConfig, hb]
  · intro hc
    by_cases ht : 10000 ≤ elapsedMs <;>
      simp [loadBusinessConfig, loadBusinessConfigInternal, ht, hc]
  · intro hd
    subst hd
    by_cases ht : 10000 ≤ elapsedMs <;>
      by_cases hx : env.exn.isSome <;>
      simp [loadBusinessConfig, loadBusinessConfigInternal, ht, hx]
  · intro h1 h2
    by_cases ht : 10000 ≤ elapsedMs
    · simp [loadBusinessConfig, ht]
    · simp [loadBusinessConfig, ht, internalLookupFailure supabaseAvailable businessId env h1 h2]

/-- Witness for C6: concrete environments hitting the timeout, the
exception path, the missing-client path, and the empty-lookup path all
yield absence. -/
theorem configLoaderAbsence_witness :
    loadBusinessConfig true (some "b1")
      ⟨⟨none, none⟩, ⟨none, none⟩, none, none⟩ 10000 = none ∧
    loadBusinessConfig true (some "b1")
      ⟨⟨none, none⟩, ⟨none, none⟩, none, some ()⟩ 5 = none ∧
    loadBusinessConfig false none
      ⟨⟨none, none⟩, ⟨none, none⟩, none, none⟩ 5 = none ∧
    loadBusinessConfig true none
      ⟨⟨none, none⟩, ⟨some [], some "db down"⟩, none, none⟩ 5 = none := by
  refine ⟨?_, ?_, ?_, ?_⟩
  · exact (configLoaderAbsence true (some "b1")
      ⟨⟨none, none⟩, ⟨none, none⟩, none, none⟩ 10000).2.1 (by decide)
  · exact (configLoaderAbsence true (some "b1")
      ⟨⟨none, none⟩, ⟨none, none⟩, none, some ()⟩ 5).2.2.1 (by decide)
  · exact (configLoaderAbsence false none
      ⟨⟨none, none⟩, ⟨none, none⟩, none, none⟩ 5).2.2.2.1 rfl
  · exact (configLoaderAbsence true none
      ⟨⟨none, none⟩, ⟨some [], some "db down"⟩, none, none⟩ 5).2.2.2.2
      (Or.inr (Or.inl rfl)) (Or.inl rfl)

/-- Effect of one tool call on the cached patient id: a successful
search/create overwrites it with the resolved id, every other call
leaves it unchanged. -/
theorem execToolPatientId (ctx : ToolCtx) (st : SessionState) (c : ToolCall) :
    (execTool ctx st c).1.currentPatientId
      = match resolvesId ctx c with
        | some n => some n
        | none => st.currentPatientId := by
  cases c with
  | search fn ln ph r1 r2 =>
    cases hc : ctx.nexhealthConfigured with
    | false => simp [execTool, searchPatientExec, resolvesId, hc]
    | true =>
      rcases r1 with e1 | ps1
      · simp [execTool, searchPatientExec, resolvesId, hc]
      · rcases ps1 with _ | ⟨p, ps⟩
        · rcases r2 with e2 | ⟨_ | ⟨q, qs⟩⟩ <;>
            simp [execTool, searchPatientExec, resolvesId, hc]
        · simp [execTool, searchPatientExec, resolvesId, hc]
  | searchByEmail em r =>
    cases hc : ctx.nexhealthConfigured with
    | false => simp [execTool, searchPatientByEmailExec, resolvesId, hc]
    | true =>
      rcases r with e1 | ⟨_ | ⟨p, ps⟩⟩ <;>
        simp [execTool, searchPatientByEmailExec, resolvesId, hc]
  | create fn ln em ph dob g r =>
    cases hc : ctx.nexhealthConfigured with
    | false => simp [execTool, createPatientExec, resolvesId, hc]
    | true =>
      rcases r with e1 | p <;> simp [execTool, createPatientExec, resolvesId, hc]
  | slots sd today dayIdx provResp =>
    simp only [execTool, getAvailableSlotsExec, resolvesId]
    split
    · rcases provResp with e1 | ⟨_ | ⟨p, ps⟩⟩ <;> simp
    · simp
  | book startTime fd ft provResp apptResp =>
    by_cases h1 : (!ctx.nexhealthConfigured) = true
    · simp [execTool, bookAppointmentExec, resolvesId, h1]
    · by_cases h2 : (!jsTruthyInt st.currentPatientId) = true
      · simp [execTool, bookAppointmentExec, resolvesId, h1, h2]
      · by_cases h3 : (!jsTruthyInt st.currentProviderId) = true
        · rcases provResp with ep | ⟨_ | ⟨p, ps⟩⟩ <;>
            rcases apptResp with ea | a <;>
            simp [execTool, bookAppointmentExec, resolvesId, h1, h2, h3]
        · rcases apptResp with ea | a <;>
            simp [execTool, bookAppointmentExec, resolvesId, h1, h2, h3]
  | practiceInfo it => simp [execTool, resolvesId]

/-- When no call in a sequence is a successful search/create, a `null`
patient id stays `null`. -/
theorem runToolsPatientIdNone (ctx : ToolCtx) (cs : List ToolCall) (st : SessionState)
    (h0 : st.currentPatientId = none) (h : ∀ c ∈ cs, resolvesId ctx c = none) :
    (runTools ctx st cs).currentPatientId = none := by
  induction cs generalizing st with
  | nil => simpa [runTools] using h0
  | cons c rest ih =>
    have hc : resolvesId ctx c = none := h c (List.mem_cons_self _ _)
    have hrest : ∀ c' ∈ rest, resolvesId ctx c' = none :=
      fun c' hc' => h c' (List.mem_cons_of_mem _ hc')
    have hstep : (execTool ctx st c).1.currentPatientId = none := by
      rw [execToolPatientId, hc, h0]
    simpa [runTools] using ih (execTool ctx st c).1 hstep hrest

/-- C2: in a conversation in which no prior searchPatient,
searchPatientByEmail or createPatient call succeeded, `bookAppointment`
returns the corrective need-patient-information message and issues zero
HTTP calls to the appointment-creation endpoint (indeed zero PMS calls
at all). -/
theorem bookingWithoutPatientInfo (ctx : ToolCtx) (cs : List ToolCall)
    (startTime fmtDate fmtTime : String) (provResp : Except Unit (List Provider))
    (apptResp : Except Unit Appointment)
    (hcfg : ctx.nexhealthConfigured = true)
    (hnone : ∀ c ∈ cs, resolvesId ctx c = none) :
    (execTool ctx (runTools ctx initialSession cs)
        (.book startTime fmtDate fmtTime provResp apptResp)).2.1 = needInfoMsg ∧
    ((execTool ctx (runTools ctx initialSession cs)
        (.book startTime fmtDate fmtTime provResp apptResp)).2.2.filter
          isCreateAppointmentCall) = [] := by
  have hid : (runTools ctx initialSession cs).currentPatientId = none :=
    runToolsPatientIdNone ctx cs initialSession rfl hnone
  constructor <;>
    simp [execTool, bookAppointmentExec, hcfg, hid, jsTruthyInt]

/-- Witness for C2: a conversation holding a practice-info query, a
failed search and an empty-result search still gets the corrective
message from `bookAppointment`, with no PMS call issued. -/
theorem bookingWithoutPatientInfo_witness :
    (execTool ⟨true, 1, ⟨"Acme", "555", "OD", 0, "1 Main", "H", "S", none⟩, "json"⟩
        (runTools ⟨true, 1, ⟨"Acme", "555", "OD", 0, "1 Main", "H", "S", none⟩, "json"⟩
          initialSession
          [.practiceInfo "hours", .search "A" "B" "5" (.error ()) (.ok []),
           .search "A" "B" "5" (.ok []) (.ok [])])
        (.book "2026-01-05T10:00:00" "Monday, January 5" "10:00 AM"
          (.ok [⟨3, "P", "Q"⟩]) (.ok ⟨9, 1, 3, "2026-01-05T10:00:00"⟩))).2.1
      = needInfoMsg := by
  exact (bookingWithoutPatientInfo ⟨true, 1, ⟨"Acme", "555", "OD", 0, "1 Main", "H", "S", none⟩,
    "json"⟩ [.practiceInfo "hours", .search "A" "B" "5" (.error ()) (.ok []),
    .search "A" "B" "5" (.ok []) (.ok [])] "2026-01-05T10:00:00" "Monday, January 5" "10:00 AM"
    (.ok [⟨3, "P", "Q"⟩]) (.ok ⟨9, 1, 3, "2026-01-05T10:00:00"⟩) rfl (by decide)).1

/-- C3: when the first (name+phone) search returns zero results, a
second search with the same name and no phone parameter is issued before
the tool reports not-found; when the first search returns at least one
result, no second search call is issued. -/
theorem searchPatientFallback (st : SessionState) (fn ln ph : String)
    (r2 : Except Unit (List Patient)) (ps : List Patient)
    (hph : ph ≠ "") (hps : ps ≠ []) :
    (searchPatientExec true st fn ln ph (.ok []) r2).2.2
      = [PMSCall.searchPatients (some (fn ++ " " ++ ln)) none (some ph),
         PMSCall.searchPatients (some (fn ++ " " ++ ln)) none none] ∧
    (r2 = .ok [] → (searchPatientExec true st fn ln ph (.ok []) r2).2.1
      = searchNotFoundMsg) ∧
    (searchPatientExec true st fn ln ph (.ok ps) r2).2.2
      = [PMSCall.searchPatients (some (fn ++ " " ++ ln)) none (some ph)] := by
  have hname : jsParamOpt (some (fn ++ " " ++ ln)) = some (fn ++ " " ++ ln) := by
    simp [jsParamOpt, fullNameNeEmpty fn ln]
  have hphone : jsParamOpt (some ph) = some ph := by
    simp [jsParamOpt, hph]
  have hnone : jsParamOpt none = none := rfl
  refine ⟨?_, ?_, ?_⟩
  · rcases r2 with e2 | ⟨_ | ⟨q, qs⟩⟩ <;>
      simp [searchPatientExec, mkSearchPatientsCall, hname, hphone, hnone]
  · intro h2
    subst h2
    simp [searchPatientExec]
  · rcases ps with _ | ⟨p, rest⟩
    · exact absurd rfl hps
    · simp [searchPatientExec, mkSearchPatientsCall, hname, hphone, hnone]

/-- Witness for C3: a concrete empty first search issues the two calls
and reports not-found; a concrete non-empty first search issues one. -/
theorem searchPatientFallback_witness :
    (searchPatientExec true initialSession "John" "Smith" "555" (.ok []) (.ok [])).2.2
      = [PMSCall.searchPatients (some "John Smith") none (some "555"),
         PMSCall.searchPatients (some "John Smith") none none] ∧
    (searchPatientExec true initialSession "John" "Smith" "555" (.ok []) (.ok [])).2.1
      = searchNotFoundMsg ∧
    (searchPatientExec true initialSession "John" "Smith" "555"
        (.ok [⟨4, "John", "Smith"⟩]) (.ok [])).2.2
      = [PMSCall.searchPatients (some "John Smith") none (some "555")] := by
  have h := searchPatientFallback initialSession "John" "Smith" "555" (.ok [])
    [⟨4, "John", "Smith"⟩] (by decide) (by decide)
  exact ⟨h.1, h.2.1 rfl, h.2.2⟩

/-- C4 (amended): when the configured hours for the requested weekday
are `"Closed"` (case-insensitively), `getAvailableSlots` never returns
an hours range — its result is the closed message or, if the lazy
provider fetch throws, the generic trouble message; whenever that fetch
is skipped or succeeds, the result is exactly the closed message. -/
theorem closedDayNoHoursRange (nexhealthConfigured : Bool)
    (rawHours : List (String × String)) (st : SessionState) (startDate : Option String)
    (todayStr : String) (dayIdx : Nat) (provResp : Except Unit (List Provider))
    (locationId : Int) (h : String)
    (hlook : jsLookup rawHours (dayNameOf dayIdx) = some h)
    (hclosed : strToLower h = "closed") :
    ((getAvailableSlotsExec nexhealthConfigured (some rawHours) st startDate todayStr
        dayIdx provResp locationId).2.1
        = closedMsg (startDate.getD todayStr) (dayNameOf dayIdx) ∨
      (getAvailableSlotsExec nexhealthConfigured (some rawHours) st startDate todayStr
        dayIdx provResp locationId).2.1 = slotsTroubleMsg) ∧
    ((jsTruthyInt st.currentProviderId = true ∨ nexhealthConfigured = false ∨
        (∃ ps, provResp = .ok ps)) →
      (getAvailableSlotsExec nexhealthConfigured (some rawHours) st startDate todayStr
        dayIdx provResp locationId).2.1
        = closedMsg (startDate.getD todayStr) (dayNameOf dayIdx)) := by
  have hbody : slotsHoursBody rawHours (startDate.getD todayStr) (dayNameOf dayIdx)
      = closedMsg (startDate.getD todayStr) (dayNameOf dayIdx) := by
    simp [slotsHoursBody, hlook, hclosed]
  by_cases hgate : (!(jsTruthyInt st.currentProviderId) && nexhealthConfigured) = true
  · rcases provResp with ep | provs
    · constructor
      · exact Or.inr (by simp [getAvailableSlotsExec, hgate])
      · intro hyp
        rcases Bool.and_eq_true_iff.mp hgate with ⟨hg1, hg2⟩
        rcases hyp with hyp | hyp | ⟨ps, hyp⟩
        · rw [hyp] at hg1; exact absurd hg1 (by decide)
        · rw [hyp] at hg2; exact absurd hg2 (by decide)
        · exact absurd hyp (by simp)
    · have : (getAvailableSlotsExec nexhealthConfigured (some rawHours) st startDate
          todayStr dayIdx (.ok provs) locationId).2.1
          = closedMsg (startDate.getD todayStr) (dayNameOf dayIdx) := by
        rcases provs with _ | ⟨p, ps⟩ <;> simp [getAvailableSlotsExec, hgate, hbody]
      exact ⟨Or.inl this, fun _ => this⟩
  · have : (getAvailableSlotsExec nexhealthConfigured (some rawHours) st startDate
        todayStr dayIdx provResp locationId).2.1
        = closedMsg (startDate.getD todayStr) (dayNameOf dayIdx) := by
      simp [getAvailableSlotsExec, hgate, hbody]
    exact ⟨Or.inl this, fun _ => this⟩

/-- Witness for C4 (amended): on a Sunday configured `"Closed"`, with a
successful lazy provider fetch, the tool answers with the closed
message. -/
theorem closedDayNoHoursRange_witness :
    (getAvailableSlotsExec true (some [("sunday", "Closed")]) initialSession
        (some "2026-10-11") "2026-10-11" 0 (.ok [⟨2, "A", "B"⟩]) 1).2.1
      = closedMsg "2026-10-11" (dayNameOf 0) :=
  (closedDayNoHoursRange true [("sunday", "Closed")] initialSession
    (some "2026-10-11") "2026-10-11" 0 (.ok [⟨2, "A", "B"⟩]) 1 "Closed"
    (by decide) (by decide)).2 (Or.inr (Or.inr ⟨_, rfl⟩))

/-- Counterexample to C4 as stated: with the hours for Sunday configured
`"Closed"`, a conversation whose lazy provider fetch throws gets the
generic trouble message, not the closed-day message. -/
theorem closedDaySlots_counterexample :
    jsLookup [("sunday", "Closed")] (dayNameOf 0) = some "Closed" ∧
    strToLower "Closed" = "closed" ∧
    (getAvailableSlotsExec true (some [("sunday", "Closed")]) initialSession
        (some "2026-10-11") "2026-10-11" 0 (.error ()) 1).2.1 = slotsTroubleMsg ∧
    slotsTroubleMsg ≠ closedMsg "2026-10-11" (dayNameOf 0) := by
  refine ⟨by decide, by decide, by decide, by decide⟩

/-- A concrete business configuration used for counterexamples. -/
def sampleConfig : BusinessConfig :=
  { id := "b1"
    name := "Acme Dental"
    generalInfo :=
      { practiceName := "Acme Dental"
        phone := "555-0100"
        software := "OpenDental"
        noShowFee := 25
        address := "1 Main St"
        hours := "Monday: 9-5"
        services := "Cleaning"
        rawHours := some [("monday", "9-5")] }
    agentConfig :=
      { agentName := some "Ava"
        greeting := some "Hello!"
        pretendence := some false
        voice := some "Puck" }
    pmsProvider := some "nexhealth"
    nexhealthConfig := { subdomain := some "acme", locationId := some "1" }
    dentalBridgeLocationId := none }

/-- C8 (amended): the prompt builder is a pure, deterministic function
of the configuration and the current date: two invocations with
identical configuration and identical `today` produce the identical
prompt string. -/
theorem promptDeterministic (c1 c2 : BusinessConfig) (t1 t2 : String)
    (hc : c1 = c2) (ht : t1 = t2) :
    fullInstructions c1 t1 = fullInstructions c2 t2 := by
  rw [hc, ht]

/-- Witness for C8 (amended) at a concrete configuration and date. -/
theorem promptDeterministic_witness :
    fullInstructions sampleConfig "2026-01-01" = fullInstructions sampleConfig "2026-01-01" :=
  promptDeterministic sampleConfig sampleConfig "2026-01-01" "2026-01-01" rfl rfl

set_option maxRecDepth 10000 in
/-- Counterexample to C8 as stated: the template embeds
`new Date().toISOString()`, so two invocations with the identical
configuration on different days produce different prompt strings —
the prompt is not a function of the configuration alone. -/
theorem promptDeterminism_counterexample :
    fullInstructions sampleConfig "2026-01-01" ≠ fullInstructions sampleConfig "2026-01-02" := by
  decide

/-- C9 (amended): after every successful patient search or creation the
resolved patient id is cached in the session state; the search tools'
result strings are fixed literals independent of the patient's name,
while `createPatient`'s result restates the given first and last name. -/
theorem patientIdCachedOnSuccess (st : SessionState) (fn ln ph em dob g : String)
    (p : Patient) (ps : List Patient) (r2 : Except Unit (List Patient)) :
    ((searchPatientExec true st fn ln ph (.ok (p :: ps)) r2).1.currentPatientId
        = some p.id ∧
      (searchPatientExec true st fn ln ph (.ok (p :: ps)) r2).2.1 = searchFoundMsg) ∧
    ((searchPatientExec true st fn ln ph (.ok []) (.ok (p :: ps))).1.currentPatientId
        = some p.id ∧
      (searchPatientExec true st fn ln ph (.ok []) (.ok (p :: ps))).2.1 = searchFoundMsg) ∧
    ((searchPatientByEmailExec true st em (.ok (p :: ps))).1.currentPatientId
        = some p.id ∧
      (searchPatientByEmailExec true st em (.ok (p :: ps))).2.1 = emailFoundMsg) ∧
    ((createPatientExec true st fn ln em ph dob g (.ok p)).1.currentPatientId
        = some p.id ∧
      (createPatientExec true st fn ln em ph dob g (.ok p)).2.1 = createdMsg fn ln) := by
  refine ⟨⟨?_, ?_⟩, ⟨?_, ?_⟩, ⟨?_, ?_⟩, ⟨?_, ?_⟩⟩ <;>
    simp [searchPatientExec, searchPatientByEmailExec, createPatientExec]

/-- Counterexample to C9 as stated: a successful `createPatient` call
caches the id but its result string restates the patient's full name. -/
theorem nameRestated_counterexample :
    (createPatientExec true initialSession "John" "Smith" "j@example.com" "555-0100"
        "1990-01-01" "male" (.ok ⟨7, "John", "Smith"⟩)).1.currentPatientId = some 7 ∧
    strContains (createPatientExec true initialSession "John" "Smith" "j@example.com"
        "555-0100" "1990-01-01" "male" (.ok ⟨7, "John", "Smith"⟩)).2.1 "John Smith"
      = true := by
  exact ⟨by decide, by decide⟩

/-- A successful search/create implies the NexHealth client was
configured. -/
theorem resolvesIdConfigured (ctx : ToolCtx) (c : ToolCall) (n : Int)
    (h : resolvesId ctx c = some n) : ctx.nexhealthConfigured = true := by
  cases hc : ctx.nexhealthConfigured with
  | true => rfl
  | false =>
    exfalso
    cases c <;> simp [resolvesId, hc] at h

/-- The confirmation message never coincides with the corrective
need-patient-information message (their first characters differ). -/
theorem bookConfirmNeNeedInfo (fd ft : String) : bookConfirmMsg fd ft ≠ needInfoMsg := by
  intro h
  have h1 := congrArg firstChar h
  rw [show firstChar (bookConfirmMsg fd ft) = some 'Y' from rfl,
    show firstChar needInfoMsg = some 'I' from rfl] at h1
  exact absurd (Option.some.inj h1) (by decide)

/-- With a truthy cached patient id, `bookAppointment` never answers
with the need-patient-information message. -/
theorem bookTruthyNotNeedInfo (cfg : Bool) (st : SessionState)
    (startTime fd ft : String) (provResp : Except Unit (List Provider))
    (apptResp : Except Unit Appointment) (locationId : Int)
    (h : jsTruthyInt st.currentPatientId = true) :
    (bookAppointmentExec cfg st startTime fd ft provResp apptResp locationId).2.1
      ≠ needInfoMsg := by
  cases cfg with
  | false => simp [bookAppointmentExec]; decide
  | true =>
    by_cases h3 : (!jsTruthyInt st.currentProviderId) = true
    · rcases provResp with ep | ⟨_ | ⟨p, ps⟩⟩ <;> rcases apptResp with ea | a <;>
        simp [bookAppointmentExec, h, h3] <;>
        first
          | decide
          | exact bookConfirmNeNeedInfo fd ft
    · rcases apptResp with ea | a <;>
        simp [bookAppointmentExec, h, h3] <;>
        first
          | decide
          | exact bookConfirmNeNeedInfo fd ft

/-- A nonzero cached patient id survives any tool call that does not
resolve a zero id. -/
theorem execToolPatientIdNonzero (ctx : ToolCtx) (st : SessionState) (c : ToolCall)
    (m : Int) (h0 : st.currentPatientId = some m) (hm : m ≠ 0)
    (hc : resolvesId ctx c ≠ some 0) :
    ∃ m', (execTool ctx st c).1.currentPatientId = some m' ∧ m' ≠ 0 := by
  have hp := execToolPatientId ctx st c
  cases hr : resolvesId ctx c with
  | none =>
    rw [hr] at hp
    exact ⟨m, by rw [hp, h0], hm⟩
  | some k =>
    rw [hr] at hp
    refine ⟨k, hp, fun hk => ?_⟩
    exact hc (by rw [hr, hk])

/-- A nonzero cached patient id survives any sequence of tool calls none
of which resolves a zero id. -/
theorem runToolsPatientIdNonzero (ctx : ToolCtx) (cs : List ToolCall)
    (st : SessionState) (m : Int) (h0 : st.currentPatientId = some m) (hm : m ≠ 0)
    (h : ∀ c ∈ cs, resolvesId ctx c ≠ some 0) :
    ∃ m', (runTools ctx st cs).currentPatientId = some m' ∧ m' ≠ 0 := by
  induction cs generalizing st m with
  | nil => exact ⟨m, by simpa [runTools] using h0, hm⟩
  | cons c rest ih =>
    obtain ⟨k, hk, hknz⟩ := execToolPatientIdNonzero ctx st c m h0 hm
      (h c (List.mem_cons_self _ _))
    exact ih (execTool ctx st c).1 k hk hknz
      (fun c' hc' => h c' (List.mem_cons_of_mem _ hc'))

/-- C10 (amended): the session patient id is monotone — every tool
execution leaves it unchanged or sets it to a non-null id, never
resetting it to null; and once a search or creation has resolved a
NONZERO patient id, with no later successful search/create resolving id
zero, every later `bookAppointment` passes the patient-id precondition
and never returns the need-patient-information message. (The nonzero
caveat is forced by JS truthiness: `!currentPatientId` treats id 0 as
missing.) -/
theorem patientIdMonotoneBooking :
    (∀ (ctx : ToolCtx) (st : SessionState) (c : ToolCall),
      (execTool ctx st c).1.currentPatientId = st.currentPatientId ∨
        ∃ n, (execTool ctx st c).1.currentPatientId = some n) ∧
    (∀ (ctx : ToolCtx) (cs1 : List ToolCall) (c0 : ToolCall) (n : Int)
        (cs2 : List ToolCall) (startTime fd ft : String)
        (provResp : Except Unit (List Provider)) (apptResp : Except Unit Appointment),
      resolvesId ctx c0 = some n → n ≠ 0 →
      (∀ c ∈ cs2, resolvesId ctx c ≠ some 0) →
      (execTool ctx
          (runTools ctx (execTool ctx (runTools ctx initialSession cs1) c0).1 cs2)
          (.book startTime fd ft provResp apptResp)).2.1 ≠ needInfoMsg) := by
  constructor
  · intro ctx st c
    have hp := execToolPatientId ctx st c
    cases hr : resolvesId ctx c with
    | none => rw [hr] at hp; exact Or.inl hp
    | some k => rw [hr] at hp; exact Or.inr ⟨k, hp⟩
  · intro ctx cs1 c0 n cs2 startTime fd ft provResp apptResp hr hn h2
    have hafter : (execTool ctx (runTools ctx initialSession cs1) c0).1.currentPatientId
        = some n := by
      have hp := execToolPatientId ctx (runTools ctx initialSession cs1) c0
      rw [hr] at hp
      exact hp
    obtain ⟨m, hm, hmnz⟩ := runToolsPatientIdNonzero ctx cs2
      (execTool ctx (runTools ctx initialSession cs1) c0).1 n hafter hn h2
    have htruthy : jsTruthyInt (runTools ctx
        (execTool ctx (runTools ctx initialSession cs1) c0).1 cs2).currentPatientId
        = true := by
      rw [hm]
      simp [jsTruthyInt, hmnz]
    exact bookTruthyNotNeedInfo ctx.nexhealthConfigured _ startTime fd ft provResp
      apptResp ctx.locationId htruthy

/-- Witness for C10 (amended): a concrete conversation — successful
search resolving id 4, then a booking that does not hit the corrective
message. -/
theorem patientIdMonotoneBooking_witness :
    ((execTool ⟨true, 1, ⟨"Acme", "555", "OD", 0, "1 Main", "H", "S", none⟩, "json"⟩
        initialSession (.practiceInfo "hours")).1.currentPatientId
          = initialSession.currentPatientId ∨
      ∃ n, (execTool ⟨true, 1, ⟨"Acme", "555", "OD", 0, "1 Main", "H", "S", none⟩, "json"⟩
        initialSession (.practiceInfo "hours")).1.currentPatientId = some n) ∧
    (execTool ⟨true, 1, ⟨"Acme", "555", "OD", 0, "1 Main", "H", "S", none⟩, "json"⟩
        (runTools ⟨true, 1, ⟨"Acme", "555", "OD", 0, "1 Main", "H", "S", none⟩, "json"⟩
          (execTool ⟨true, 1, ⟨"Acme", "555", "OD", 0, "1 Main", "H", "S", none⟩, "json"⟩
            (runTools ⟨true, 1, ⟨"Acme", "555", "OD", 0, "1 Main", "H", "S", none⟩, "json"⟩
              initialSession [])
            (.search "John" "Smith" "555" (.ok [⟨4, "John", "Smith"⟩]) (.ok []))).1
          [])
        (.book "2026-01-05T10:00:00" "Monday, January 5" "10:00 AM"
          (.ok [⟨3, "P", "Q"⟩]) (.ok ⟨9, 4, 3, "2026-01-05T10:00:00"⟩))).2.1
      ≠ needInfoMsg := by
  constructor
  · exact patientIdMonotoneBooking.1
      ⟨true, 1, ⟨"Acme", "555", "OD", 0, "1 Main", "H", "S", none⟩, "json"⟩
      initialSession (.practiceInfo "hours")
  · exact patientIdMonotoneBooking.2
      ⟨true, 1, ⟨"Acme", "555", "OD", 0, "1 Main", "H", "S", none⟩, "json"⟩
      [] (.search "John" "Smith" "555" (.ok [⟨4, "John", "Smith"⟩]) (.ok [])) 4 []
      "2026-01-05T10:00:00" "Monday, January 5" "10:00 AM"
      (.ok [⟨3, "P", "Q"⟩]) (.ok ⟨9, 4, 3, "2026-01-05T10:00:00"⟩)
      (by decide) (by decide) (by decide)

/-- Counterexample to C10 as stated: a search succeeding with patient id
0 (a non-null id) is cached, yet the JS-falsy check makes the next
`bookAppointment` still return the need-patient-information message. -/
theorem zeroIdBooking_counterexample :
    (execTool ⟨true, 1, ⟨"Acme", "555", "OD", 0, "1 Main", "H", "S", none⟩, "json"⟩
        initialSession (.search "Jo" "Sm" "555" (.ok [⟨0, "Jo", "Sm"⟩]) (.ok []))).2.1
      = searchFoundMsg ∧
    (execTool ⟨true, 1, ⟨"Acme", "555", "OD", 0, "1 Main", "H", "S", none⟩, "json"⟩
        (execTool ⟨true, 1, ⟨"Acme", "555", "OD", 0, "1 Main", "H", "S", none⟩, "json"⟩
          initialSession (.search "Jo" "Sm" "555" (.ok [⟨0, "Jo", "Sm"⟩]) (.ok []))).1
        (.book "2026-01-05T10:00:00" "Monday, January 5" "10:00 AM"
          (.ok [⟨3, "P", "Q"⟩]) (.ok ⟨9, 0, 3, "2026-01-05T10:00:00"⟩))).2.1
      = needInfoMsg := by
  exact ⟨by decide, by decide⟩
